/-
Verification of the BMA423 feature-configuration windowed read/modify/write
protocol (bma423-async/src/lib.rs), shallowly embedded in Lean 4.

The driver talks to the device over a register-oriented bus.  We model the
device (power-mode register, the two pointer registers 0x5B/0x5C, and the
internal configuration memory behind the 8-byte FEATURES_IN port) as explicit
state, and each driver routine as a state-passing function that also records
the sequence of bus transactions and delays it performs.  Bus errors are
injected by a `failAt` transaction index; Rust panics (assertion failures,
slice-length mismatches) are modelled as a distinct error value.
-/
import Mathlib

set_option linter.unusedVariables false

/-! ## Register addresses (register.rs) -/

def RESERVED_REG_5B : Nat := 0x5B
def RESERVED_REG_5C : Nat := 0x5C
def FEATURES_IN : Nat := 0x5E
def PWR_CONF : Nat := 0x7C

/-! ## Driver constants (lib.rs) -/

def CONFIG_FILE_SIZE : Nat := 0x1800
def FEATURE_SIZE : Nat := 64
def FEATURE_RW_SIZE : Nat := 8
def SENSOR_TIME_SYNCHRONIZATION_US : Nat := 450

namespace feature_offset

def START : Nat := CONFIG_FILE_SIZE - FEATURE_RW_SIZE

end feature_offset

/-! ## PowerMode bitflags (u8 values) -/

def ADVANCED_POWER_SAVE : Nat := 0b01
def FIFO_SELF_WAKEUP : Nat := 0b10

/-- bitflags `from_bits_truncate`: keep only the defined PowerMode bits. -/
def powerModeFromBitsTruncate (bits : Nat) : Nat :=
  bits &&& (ADVANCED_POWER_SAVE ||| FIFO_SELF_WAKEUP)

/-- bitflags `contains`: all bits of `flag` are set in `m`. -/
def powerModeContains (m flag : Nat) : Bool := m &&& flag == flag

/-- bitflags `difference`: `self.bits & !other.bits` on u8. -/
def powerModeDifference (m flag : Nat) : Nat := m &&& (255 ^^^ flag)

/-! ## Pointer codec (pure functions from lib.rs) -/

def split_feature_conf_data_address (addr : Nat) : Nat × Nat :=
  ((addr / 2) &&& 0x0F, ((addr / 2) >>> 4) % 256)

def join_feature_conf_data_address (asic_lsb asic_msb : Nat) : Nat :=
  ((asic_msb <<< 4) ||| (asic_lsb &&& 0x0F)) * 2

/-! ## Device model -/

/-- Store a list of bytes into memory `m` starting at address `a`. -/
def storeBytes (m : Nat → Nat) (a : Nat) : List Nat → (Nat → Nat)
  | [] => m
  | b :: rest => storeBytes (fun x => if x = a then b else m x) (a + 1) rest

/-- Read `n` bytes from memory `m` starting at address `a`. -/
def readBytes (m : Nat → Nat) (a : Nat) : Nat → List Nat
  | 0 => []
  | n + 1 => m a :: readBytes m (a + 1) n

/-- The device: power-mode register, the two feature-config pointer
registers, and the internal configuration memory addressed through the
8-byte FEATURES_IN port at the pointer encoded by the register pair. -/
structure Device where
  pwrConf : Nat
  reg5B : Nat
  reg5C : Nat
  mem : Nat → Nat

/-- Effect of an i2c `write(address, data)` on the device: `data[0]` is the
register address, the rest is payload.  A write to FEATURES_IN stores the
payload at the current pointer. -/
def devWrite (d : Device) (data : List Nat) : Device :=
  match data with
  | [] => d
  | reg :: rest =>
    if reg = PWR_CONF then { d with pwrConf := rest.headD 0 }
    else if reg = RESERVED_REG_5B then { d with reg5B := rest.headD 0 }
    else if reg = RESERVED_REG_5C then { d with reg5C := rest.headD 0 }
    else if reg = FEATURES_IN then
      let a := join_feature_conf_data_address d.reg5B d.reg5C
      { d with mem := storeBytes d.mem a rest }
    else d

/-- Effect of an i2c `write_read(address, [reg], buf)`: the bytes returned
for a read of length `len` at register `reg`.  A read from FEATURES_IN
loads from the current pointer. -/
def devRead (d : Device) (reg len : Nat) : List Nat :=
  if reg = PWR_CONF then List.replicate len d.pwrConf
  else if reg = RESERVED_REG_5B then List.replicate len d.reg5B
  else if reg = RESERVED_REG_5C then List.replicate len d.reg5C
  else if reg = FEATURES_IN then
    readBytes d.mem (join_feature_conf_data_address d.reg5B d.reg5C) len
  else List.replicate len 0

/-! ## Execution model: bus transaction trace, error injection -/

/-- One observable step: a bus write, a bus write-then-read, or a delay. -/
inductive Event where
  | writeTx (data : List Nat)
  | readTx (reg : Nat) (out : List Nat)
  | delayUs (us : Nat)
  | delayMs (ms : Nat)
deriving DecidableEq

/-- Errors: a bus error (modelled as injected at transaction index `failAt`)
or a Rust panic (assertion failure / slice length mismatch). -/
inductive Err where
  | bus
  | panicked
deriving DecidableEq

structure St where
  dev : Device
  events : List Event
  failAt : Option Nat
  txIndex : Nat

/-- The driver's effect monad: state passing over `St`, short-circuiting
on error, in the style of `Result` propagation with `?` in the source. -/
def M (α : Type) : Type := St → Except Err α × St

def M.pure {α : Type} (a : α) : M α := fun s => (Except.ok a, s)

def M.bind {α β : Type} (x : M α) (f : α → M β) : M β := fun s =>
  match x s with
  | (Except.ok a, s') => f a s'
  | (Except.error e, s') => (Except.error e, s')

instance : Monad M where
  pure := M.pure
  bind := M.bind

/-- A Rust panic aborts the computation; no bus transaction is issued. -/
def rustPanic {α : Type} : M α := fun s => (Except.error Err.panicked, s)

/-- Models `self.i2c.write(self.address, data)`, with bus-error injection. -/
def busWrite (data : List Nat) : M Unit := fun s =>
  if s.failAt = some s.txIndex then
    (Except.error Err.bus, { s with txIndex := s.txIndex + 1 })
  else
    (Except.ok (), { s with dev := devWrite s.dev data,
                            events := s.events ++ [Event.writeTx data],
                            txIndex := s.txIndex + 1 })

/-- Models `self.i2c.write_read(self.address, &[register], buf)`. -/
def busRead (reg len : Nat) : M (List Nat) := fun s =>
  if s.failAt = some s.txIndex then
    (Except.error Err.bus, { s with txIndex := s.txIndex + 1 })
  else
    (Except.ok (devRead s.dev reg len),
     { s with events := s.events ++ [Event.readTx reg (devRead s.dev reg len)],
              txIndex := s.txIndex + 1 })

/-- Models `self.delay.delay_us(us)`. -/
def delay_us (us : Nat) : M Unit := fun s =>
  (Except.ok (), { s with events := s.events ++ [Event.delayUs us] })

/-! ## Driver register r/w utilities (lib.rs) -/

def read_registers (register buflen : Nat) : M (List Nat) := busRead register buflen

def read_u8 (register : Nat) : M Nat := do
  let data ← read_registers register 1
  pure (data.headD 0)

def write (data : List Nat) : M Unit := busWrite data

def power_mode : M Nat := do
  let b ← read_u8 PWR_CONF
  pure (powerModeFromBitsTruncate b)

def set_power_mode (mode : Nat) : M Unit := write [PWR_CONF, mode]

/-! ## Power-save bracket (lib.rs `disable_advanced_power_save` /
`restore_advanced_power_save`) -/

def disable_advanced_power_save : M Nat := do
  let pm ← power_mode
  if powerModeContains pm ADVANCED_POWER_SAVE then
    set_power_mode (powerModeDifference pm ADVANCED_POWER_SAVE)
    delay_us SENSOR_TIME_SYNCHRONIZATION_US
    pure pm
  else
    pure pm

def restore_advanced_power_save (prev_power_mode : Nat) : M Unit := do
  set_power_mode prev_power_mode
  delay_us SENSOR_TIME_SYNCHRONIZATION_US

/-! ## Pointer register management -/

def set_feature_config_data_addr (addr : Nat) : M Unit := do
  let p := split_feature_conf_data_address addr
  write [RESERVED_REG_5B, p.1]
  write [RESERVED_REG_5C, p.2]

def feature_config_data_addr : M Nat := do
  let asic_lsb ← read_u8 RESERVED_REG_5B
  let asic_msb ← read_u8 RESERVED_REG_5C
  pure (join_feature_conf_data_address asic_lsb asic_msb)

def incr_feature_config_data_addr : M Unit := do
  let addr ← feature_config_data_addr
  set_feature_config_data_addr (addr + FEATURE_RW_SIZE)

/-! ## Rust slice primitives

`rustSlice xs start stop` models `&xs[start..stop]` (panics when out of
range); `copy_from_slice dst start stop src` models
`dst[start..stop].copy_from_slice(&src)` (panics when the slice is out of
range or the two lengths differ). -/

def rustSlice (xs : List Nat) (start stop : Nat) : M (List Nat) :=
  if start ≤ stop ∧ stop ≤ xs.length then
    M.pure ((xs.drop start).take (stop - start))
  else rustPanic

def copy_from_slice (dst : List Nat) (start stop : Nat) (src : List Nat) :
    M (List Nat) :=
  if start ≤ stop ∧ stop ≤ dst.length ∧ src.length = stop - start then
    M.pure (dst.take start ++ src ++ dst.drop stop)
  else rustPanic

/-! ## Chunked burst transfer (lib.rs `burst_write_features` /
`burst_read_features`) -/

/-- The `for chunk_i in 0..buf.len() / FEATURE_RW_SIZE` loop of
`burst_write_features`, with the scratch `chunk` buffer threaded through
(it persists across iterations in the source). -/
def burstWriteChunks (buf : List Nat) : Nat → Nat → List Nat → M (List Nat)
  | 0, _, chunk => M.pure chunk
  | n + 1, chunk_i, chunk => do
    let i := chunk_i * FEATURE_RW_SIZE
    let src ← rustSlice buf i (i + FEATURE_RW_SIZE)
    let chunk ← copy_from_slice chunk 1 (FEATURE_RW_SIZE + 1) src
    write chunk
    incr_feature_config_data_addr
    burstWriteChunks buf n (chunk_i + 1) chunk

def burst_write_features (start_addr : Nat) (buf : List Nat) : M Unit := do
  if buf.length % 2 = 0 then
    set_feature_config_data_addr start_addr
    let chunk0 := FEATURES_IN :: List.replicate FEATURE_RW_SIZE 0
    let chunk ← burstWriteChunks buf (buf.length / FEATURE_RW_SIZE) 0 chunk0
    let overflow := buf.length % FEATURE_RW_SIZE
    if overflow > 0 then
      let src ← rustSlice buf (buf.length - overflow) buf.length
      let chunk ← copy_from_slice chunk 1 overflow src
      write chunk
    else
      M.pure ()
  else
    rustPanic

/-- The chunk loop of `burst_read_features`: read 8 bytes from the port
into `buf[i..i+8]`, then advance the pointer. -/
def burstReadChunks : Nat → Nat → List Nat → M (List Nat)
  | 0, _, buf => M.pure buf
  | n + 1, chunk_i, buf => do
    let i := chunk_i * FEATURE_RW_SIZE
    let bytes ← read_registers FEATURES_IN FEATURE_RW_SIZE
    let buf ← copy_from_slice buf i (i + FEATURE_RW_SIZE) bytes
    incr_feature_config_data_addr
    burstReadChunks n (chunk_i + 1) buf

def burst_read_features (start_addr : Nat) (buf : List Nat) : M (List Nat) := do
  if buf.length % 2 = 0 then
    set_feature_config_data_addr start_addr
    let buf2 ← burstReadChunks (buf.length / FEATURE_RW_SIZE) 0 buf
    let overflow := buf.length % FEATURE_RW_SIZE
    if overflow > 0 then
      let start := buf.length - overflow
      let bytes ← read_registers FEATURES_IN overflow
      copy_from_slice buf2 start buf.length bytes
    else
      M.pure buf2
  else
    rustPanic

/-! ## Feature transactions (lib.rs `set_features` / `read_features`) -/

def read_features (buf : List Nat) : M (List Nat) := do
  let prev_power_mode ← disable_advanced_power_save
  let buf ← burst_read_features feature_offset.START buf
  if powerModeContains prev_power_mode ADVANCED_POWER_SAVE then
    restore_advanced_power_save prev_power_mode
    pure buf
  else
    pure buf

def set_features (f : List Nat → List Nat) : M Unit := do
  let prev_power_mode ← disable_advanced_power_save
  let buf ← burst_read_features feature_offset.START
    (List.replicate FEATURE_SIZE 0)
  let buf := f buf
  burst_write_features feature_offset.START buf
  if powerModeContains prev_power_mode ADVANCED_POWER_SAVE then
    restore_advanced_power_save prev_power_mode
  else
    pure ()

/-! ## Trace observers

Pure functions over the recorded event list, used to state the claims:
which bus writes target the power-mode register, which target the 8-byte
feature port, and what the pointer register pair encodes at the moment of
each port access. -/

/-- All bus writes whose register byte is PWR_CONF. -/
def pwrWrites (evs : List Event) : List (List Nat) :=
  evs.filterMap fun e => match e with
    | Event.writeTx (r :: rest) =>
      if r = PWR_CONF then some (r :: rest) else none
    | _ => none

/-- All bus writes whose register byte is FEATURES_IN (port data writes). -/
def portWriteTxs (evs : List Event) : List (List Nat) :=
  evs.filterMap fun e => match e with
    | Event.writeTx (r :: rest) =>
      if r = FEATURES_IN then some (r :: rest) else none
    | _ => none

/-- Replay the trace tracking the two pointer registers, recording the
decoded pointer in effect at each FEATURES_IN port *write*. -/
def pointerLog : List Event → Nat → Nat → List Nat
  | [], _, _ => []
  | Event.writeTx (r :: rest) :: evs, lsb, msb =>
    if r = RESERVED_REG_5B then pointerLog evs (rest.headD 0) msb
    else if r = RESERVED_REG_5C then pointerLog evs lsb (rest.headD 0)
    else if r = FEATURES_IN then
      join_feature_conf_data_address lsb msb :: pointerLog evs lsb msb
    else pointerLog evs lsb msb
  | _ :: evs, lsb, msb => pointerLog evs lsb msb

/-- Replay the trace tracking the two pointer registers, recording the
decoded pointer and transfer size at each FEATURES_IN port *read*. -/
def portReadLog : List Event → Nat → Nat → List (Nat × Nat)
  | [], _, _ => []
  | Event.writeTx (r :: rest) :: evs, lsb, msb =>
    if r = RESERVED_REG_5B then portReadLog evs (rest.headD 0) msb
    else if r = RESERVED_REG_5C then portReadLog evs lsb (rest.headD 0)
    else portReadLog evs lsb msb
  | Event.readTx r out :: evs, lsb, msb =>
    if r = FEATURES_IN then
      (join_feature_conf_data_address lsb msb, out.length) :: portReadLog evs lsb msb
    else portReadLog evs lsb msb
  | _ :: evs, lsb, msb => portReadLog evs lsb msb

/-! ## Expected transaction traces -/

/-- Trace of `set_feature_config_data_addr addr`. -/
def setPtrTrace (addr : Nat) : List Event :=
  [Event.writeTx [RESERVED_REG_5B, (split_feature_conf_data_address addr).1],
   Event.writeTx [RESERVED_REG_5C, (split_feature_conf_data_address addr).2]]

/-- Trace of `incr_feature_config_data_addr` when the pointer registers
currently encode `a`: read both registers, then write back `a + 8`. -/
def incrTrace (a : Nat) : List Event :=
  Event.readTx RESERVED_REG_5B [(split_feature_conf_data_address a).1]
    :: Event.readTx RESERVED_REG_5C [(split_feature_conf_data_address a).2]
    :: setPtrTrace (a + 8)

/-- Trace of `n` iterations of the write chunk loop starting with the
pointer at `a` and the buffer cursor at chunk index `chunk_i`. -/
def writeChunkTrace (buf : List Nat) : Nat → Nat → Nat → List Event
  | 0, _, _ => []
  | n + 1, a, chunk_i =>
    Event.writeTx (FEATURES_IN :: (buf.drop (chunk_i * 8)).take 8)
      :: (incrTrace a ++ writeChunkTrace buf n (a + 8) (chunk_i + 1))

/-- Trace of `n` iterations of the read chunk loop over device memory `m`
starting with the pointer at `a`. -/
def readChunkTrace (m : Nat → Nat) : Nat → Nat → List Event
  | 0, _ => []
  | n + 1, a =>
    Event.readTx FEATURES_IN (readBytes m a 8)
      :: (incrTrace a ++ readChunkTrace m n (a + 8))

/-- Full trace of a successful `burst_read_features start buf` over device
memory `m`, for `buf.length = len`. -/
def burstReadTrace (m : Nat → Nat) (start len : Nat) : List Event :=
  setPtrTrace start ++ readChunkTrace m (len / 8) start ++
    (if len % 8 = 0 then []
     else [Event.readTx FEATURES_IN (readBytes m (start + 8 * (len / 8)) (len % 8))])

/-- Full trace of a successful `burst_write_features start buf` when
`buf.length` is a multiple of 8. -/
def burstWriteTrace (buf : List Nat) (start : Nat) : List Event :=
  setPtrTrace start ++ writeChunkTrace buf (buf.length / 8) start 0

/-- Successful-step state update: new device, appended events, `k` more
bus transactions. -/
def St.upd (s : St) (d : Device) (es : List Event) (k : Nat) : St :=
  ⟨d, s.events ++ es, s.failAt, s.txIndex + k⟩

/-- Memory contents after `n` write-loop iterations. -/
def writeLoopMem (m : Nat → Nat) (buf : List Nat) : Nat → Nat → Nat → (Nat → Nat)
  | 0, _, _ => m
  | n + 1, a, chunk_i =>
    writeLoopMem (storeBytes m a ((buf.drop (chunk_i * 8)).take 8)) buf n (a + 8) (chunk_i + 1)

/-- Scratch-buffer tail after `n` write-loop iterations. -/
def writeLoopTail (tail buf : List Nat) : Nat → Nat → List Nat
  | 0, _ => tail
  | n + 1, chunk_i => writeLoopTail ((buf.drop (chunk_i * 8)).take 8) buf n (chunk_i + 1)

/-- Caller buffer contents after `n` read-loop iterations. -/
def readLoopBuf (m : Nat → Nat) (buf : List Nat) : Nat → Nat → Nat → List Nat
  | 0, _, _ => buf
  | n + 1, a, chunk_i =>
    readLoopBuf m (buf.take (chunk_i * 8) ++ readBytes m a 8 ++ buf.drop (chunk_i * 8 + 8)) n (a + 8) (chunk_i + 1)

/-- Result buffer of a successful `burst_read_features`. -/
def burstReadResultBuf (m : Nat → Nat) (buf : List Nat) (start : Nat) : List Nat :=
  let b := readLoopBuf m buf (buf.length / 8) start 0
  if buf.length % 8 = 0 then b
  else b.take (buf.length - buf.length % 8) ++
    readBytes m (start + 8 * (buf.length / 8)) (buf.length % 8) ++ b.drop buf.length

/-- Bus transactions issued by a successful `burst_read_features`. -/
def burstReadTxCount (len : Nat) : Nat :=
  2 + 5 * (len / 8) + (if len % 8 = 0 then 0 else 1)

/-! ## Decidable equality for results -/

instance exceptDecEq {ε α : Type} [DecidableEq ε] [DecidableEq α] :
    DecidableEq (Except ε α)
  | Except.ok x, Except.ok y =>
    if h : x = y then Decidable.isTrue (by subst h; rfl)
    else Decidable.isFalse (fun hc => h (Except.ok.inj hc))
  | Except.ok x, Except.error y =>
    Decidable.isFalse (fun hc => Except.noConfusion hc)
  | Except.error x, Except.ok y =>
    Decidable.isFalse (fun hc => Except.noConfusion hc)
  | Except.error x, Except.error y =>
    if h : x = y then Decidable.isTrue (by subst h; rfl)
    else Decidable.isFalse (fun hc => h (Except.error.inj hc))

/-! ## Concrete devices used for witnesses and counterexamples -/

/-- A device with advanced power save ON (bit 0 of PWR_CONF set). -/
def testDevice : Device := ⟨1, 0, 0, fun _ => 0⟩

/-- A device with advanced power save OFF but FIFO self wakeup ON. -/
def testDeviceOff : Device := ⟨2, 0, 0, fun _ => 0⟩


/-! ## Run lemmas for the effect monad -/

theorem M.run_bind {α β : Type} (x : M α) (f : α → M β) (s : St) :
    (x >>= f) s = match x s with
      | (Except.ok a, s') => f a s'
      | (Except.error e, s') => (Except.error e, s') := rfl

theorem M.run_pure {α : Type} (a : α) (s : St) :
    (Pure.pure a : M α) s = (Except.ok a, s) := rfl

/-! ## Pointer codec lemmas -/

set_option maxRecDepth 4000 in
theorem shiftLeft_or_small : ∀ x : Fin 256, ∀ y : Fin 16,
    ((x : Nat) <<< 4) ||| (y : Nat) = 16 * x + y := by decide

/-- Decoding after encoding is the identity on even addresses below 8192. -/
theorem join_split (a : Nat) (h2 : a % 2 = 0) (hlt : a < 8192) :
    join_feature_conf_data_address
      (split_feature_conf_data_address a).1
      (split_feature_conf_data_address a).2 = a := by
  simp only [split_feature_conf_data_address, join_feature_conf_data_address]
  have hn : a / 2 < 4096 := by omega
  have h15 : (a / 2 &&& 15) &&& 15 = a / 2 % 16 := by
    rw [Nat.and_assoc]
    show a / 2 &&& 15 = a / 2 % 16
    exact Nat.and_pow_two_sub_one_eq_mod (a / 2) 4
  have hshift : (a / 2) >>> 4 = a / 2 / 16 := by
    rw [Nat.shiftRight_eq_div_pow]
  have hmod : a / 2 / 16 % 256 = a / 2 / 16 := Nat.mod_eq_of_lt (by omega)
  have haux : (a / 2 / 16) <<< 4 ||| (a / 2 % 16) = 16 * (a / 2 / 16) + a / 2 % 16 :=
    shiftLeft_or_small ⟨a / 2 / 16, by omega⟩ ⟨a / 2 % 16, by omega⟩
  rw [h15, hshift, hmod, haux]
  omega

/-- Encoding an odd address silently drops the low bit. -/
theorem split_odd_rounds_down (a : Nat) (h : a % 2 = 1) :
    split_feature_conf_data_address a = split_feature_conf_data_address (a - 1) := by
  simp only [split_feature_conf_data_address]
  have : a / 2 = (a - 1) / 2 := by omega
  rw [this]

/-! ## Run lemmas -/

@[simp] theorem St.upd_dev (s : St) (d : Device) (es : List Event) (k : Nat) : (s.upd d es k).dev = d := rfl
@[simp] theorem St.upd_events (s : St) (d : Device) (es : List Event) (k : Nat) : (s.upd d es k).events = s.events ++ es := rfl
@[simp] theorem St.upd_failAt (s : St) (d : Device) (es : List Event) (k : Nat) : (s.upd d es k).failAt = s.failAt := rfl
@[simp] theorem St.upd_txIndex (s : St) (d : Device) (es : List Event) (k : Nat) : (s.upd d es k).txIndex = s.txIndex + k := rfl

@[simp] theorem St.upd_upd (s : St) (d d' : Device) (es es' : List Event) (k k' : Nat) :
    (s.upd d es k).upd d' es' k' = s.upd d' (es ++ es') (k + k') := by
  simp [St.upd, List.append_assoc]
  omega

theorem M.bind_ok {α β : Type} {x : M α} {s s₁ : St} {a : α} (f : α → M β)
    (h : x s = (Except.ok a, s₁)) : (x >>= f) s = f a s₁ := by
  rw [M.run_bind, h]

theorem M.bind_err {α β : Type} {x : M α} {s s₁ : St} {e : Err} (f : α → M β)
    (h : x s = (Except.error e, s₁)) : (x >>= f) s = (Except.error e, s₁) := by
  rw [M.run_bind, h]

theorem devRead_pwr (d : Device) (len : Nat) :
    devRead d PWR_CONF len = List.replicate len d.pwrConf := by
  simp [devRead]

theorem devRead_5B (d : Device) (len : Nat) :
    devRead d RESERVED_REG_5B len = List.replicate len d.reg5B := by
  simp [devRead, RESERVED_REG_5B, PWR_CONF]

theorem devRead_5C (d : Device) (len : Nat) :
    devRead d RESERVED_REG_5C len = List.replicate len d.reg5C := by
  simp [devRead, RESERVED_REG_5C, RESERVED_REG_5B, PWR_CONF]

theorem devRead_port (d : Device) (len : Nat) :
    devRead d FEATURES_IN len = readBytes d.mem (join_feature_conf_data_address d.reg5B d.reg5C) len := by
  simp [devRead, FEATURES_IN, RESERVED_REG_5C, RESERVED_REG_5B, PWR_CONF]

theorem devWrite_pwr (d : Device) (v : Nat) :
    devWrite d [PWR_CONF, v] = { d with pwrConf := v } := by
  simp [devWrite]

theorem devWrite_5B (d : Device) (v : Nat) :
    devWrite d [RESERVED_REG_5B, v] = { d with reg5B := v } := by
  simp [devWrite, RESERVED_REG_5B, PWR_CONF]

theorem devWrite_5C (d : Device) (v : Nat) :
    devWrite d [RESERVED_REG_5C, v] = { d with reg5C := v } := by
  simp [devWrite, RESERVED_REG_5C, RESERVED_REG_5B, PWR_CONF]

theorem devWrite_port (d : Device) (rest : List Nat) :
    devWrite d (FEATURES_IN :: rest) = { d with mem := storeBytes d.mem (join_feature_conf_data_address d.reg5B d.reg5C) rest } := by
  simp [devWrite, FEATURES_IN, RESERVED_REG_5C, RESERVED_REG_5B, PWR_CONF]

theorem write_ok (data : List Nat) (s : St) (h : s.failAt = none) :
    write data s = (Except.ok (), s.upd (devWrite s.dev data) [Event.writeTx data] 1) := by
  simp [write, busWrite, h, St.upd]

theorem read_registers_ok (reg len : Nat) (s : St) (h : s.failAt = none) :
    read_registers reg len s = (Except.ok (devRead s.dev reg len), s.upd s.dev [Event.readTx reg (devRead s.dev reg len)] 1) := by
  simp [read_registers, busRead, h, St.upd]

theorem read_u8_ok (reg : Nat) (s : St) (h : s.failAt = none) :
    read_u8 reg s = (Except.ok ((devRead s.dev reg 1).headD 0), s.upd s.dev [Event.readTx reg (devRead s.dev reg 1)] 1) := by
  show (read_registers reg 1 >>= fun data => pure (data.headD 0)) s = _
  rw [M.bind_ok _ (read_registers_ok reg 1 s h)]
  rfl

theorem delay_us_ok (us : Nat) (s : St) :
    delay_us us s = (Except.ok (), s.upd s.dev [Event.delayUs us] 0) := by
  simp [delay_us, St.upd]

theorem powerModeDifference_trunc (p : Nat) :
    powerModeDifference (p &&& 3) ADVANCED_POWER_SAVE = p &&& 2 := by
  have h1 : ((255 : Nat) ^^^ 1) = 254 := by decide
  have h2 : ((3 : Nat) &&& 254) = 2 := by decide
  simp [powerModeDifference, ADVANCED_POWER_SAVE, h1, Nat.and_assoc, h2]

theorem powerModeContains_trunc (p : Nat) :
    powerModeContains (p &&& 3) ADVANCED_POWER_SAVE = (p &&& 1 == 1) := by
  have h1 : ((3 : Nat) &&& 1) = 1 := by decide
  simp [powerModeContains, ADVANCED_POWER_SAVE, Nat.and_assoc, h1]

theorem power_mode_ok (s : St) (h : s.failAt = none) :
    power_mode s = (Except.ok (s.dev.pwrConf &&& 3), s.upd s.dev [Event.readTx PWR_CONF [s.dev.pwrConf]] 1) := by
  unfold power_mode
  rw [M.bind_ok _ (read_u8_ok PWR_CONF s h)]
  simp [devRead_pwr, powerModeFromBitsTruncate, ADVANCED_POWER_SAVE, FIFO_SELF_WAKEUP, M.run_pure]

theorem set_power_mode_ok (mode : Nat) (s : St) (h : s.failAt = none) :
    set_power_mode mode s = (Except.ok (), s.upd { s.dev with pwrConf := mode } [Event.writeTx [PWR_CONF, mode]] 1) := by
  show write [PWR_CONF, mode] s = _
  rw [write_ok _ _ h, devWrite_pwr]

/-- The disable step when advanced power save is set: one read, one write
clearing the bit, one delay. -/
theorem disable_aps_on (s : St) (h : s.failAt = none) (hp : s.dev.pwrConf &&& 1 = 1) :
    disable_advanced_power_save s = (Except.ok (s.dev.pwrConf &&& 3), s.upd { s.dev with pwrConf := s.dev.pwrConf &&& 2 } [Event.readTx PWR_CONF [s.dev.pwrConf], Event.writeTx [PWR_CONF, s.dev.pwrConf &&& 2], Event.delayUs SENSOR_TIME_SYNCHRONIZATION_US] 2) := by
  unfold disable_advanced_power_save
  rw [M.bind_ok _ (power_mode_ok s h)]
  simp only [powerModeContains_trunc, hp, beq_self_eq_true, if_true, powerModeDifference_trunc]
  rw [M.bind_ok _ (set_power_mode_ok _ _ (by simp [h]))]
  rw [M.bind_ok _ (delay_us_ok _ _)]
  simp [M.run_pure, St.upd_upd]

/-- The disable step when advanced power save is clear: a single read,
no write, no delay. -/
theorem disable_aps_off (s : St) (h : s.failAt = none) (hp : s.dev.pwrConf &&& 1 = 0) :
    disable_advanced_power_save s = (Except.ok (s.dev.pwrConf &&& 3), s.upd s.dev [Event.readTx PWR_CONF [s.dev.pwrConf]] 1) := by
  unfold disable_advanced_power_save
  rw [M.bind_ok _ (power_mode_ok s h)]
  simp [powerModeContains_trunc, hp, M.run_pure]

theorem restore_ok (prev : Nat) (s : St) (h : s.failAt = none) :
    restore_advanced_power_save prev s = (Except.ok (), s.upd { s.dev with pwrConf := prev } [Event.writeTx [PWR_CONF, prev], Event.delayUs SENSOR_TIME_SYNCHRONIZATION_US] 1) := by
  unfold restore_advanced_power_save
  rw [M.bind_ok _ (set_power_mode_ok _ _ h)]
  rw [delay_us_ok]
  simp [St.upd_upd]

theorem set_feature_config_data_addr_ok (addr : Nat) (s : St) (h : s.failAt = none) :
    set_feature_config_data_addr addr s = (Except.ok (), s.upd { s.dev with reg5B := (split_feature_conf_data_address addr).1, reg5C := (split_feature_conf_data_address addr).2 } (setPtrTrace addr) 2) := by
  unfold set_feature_config_data_addr
  rw [M.bind_ok _ (write_ok _ _ h)]
  rw [write_ok _ _ (by simp [h])]
  simp [devWrite_5B, devWrite_5C, St.upd_upd, setPtrTrace]

theorem feature_config_data_addr_ok (a : Nat) (s : St) (h : s.failAt = none)
    (h5B : s.dev.reg5B = (split_feature_conf_data_address a).1)
    (h5C : s.dev.reg5C = (split_feature_conf_data_address a).2)
    (h2 : a % 2 = 0) (hlt : a < 8192) :
    feature_config_data_addr s = (Except.ok a, s.upd s.dev [Event.readTx RESERVED_REG_5B [s.dev.reg5B], Event.readTx RESERVED_REG_5C [s.dev.reg5C]] 2) := by
  unfold feature_config_data_addr
  rw [M.bind_ok _ (read_u8_ok _ _ h)]
  rw [M.bind_ok _ (read_u8_ok _ _ (by simp [h]))]
  simp only [devRead_5B, devRead_5C, St.upd_dev, St.upd_events, M.run_pure, St.upd_upd,
    List.replicate, List.headD_cons]
  rw [h5B, h5C, join_split a h2 hlt]
  simp

theorem incr_ok (a : Nat) (s : St) (h : s.failAt = none)
    (h5B : s.dev.reg5B = (split_feature_conf_data_address a).1)
    (h5C : s.dev.reg5C = (split_feature_conf_data_address a).2)
    (h2 : a % 2 = 0) (hlt : a < 8192) :
    incr_feature_config_data_addr s = (Except.ok (), s.upd { s.dev with reg5B := (split_feature_conf_data_address (a + 8)).1, reg5C := (split_feature_conf_data_address (a + 8)).2 } (incrTrace a) 4) := by
  unfold incr_feature_config_data_addr
  rw [M.bind_ok _ (feature_config_data_addr_ok a s h h5B h5C h2 hlt)]
  rw [set_feature_config_data_addr_ok _ _ (by simp [h])]
  simp only [St.upd_upd, St.upd_dev]
  rw [h5B, h5C]
  simp [incrTrace, setPtrTrace, FEATURE_RW_SIZE]

theorem readBytes_length (m : Nat → Nat) : ∀ (n a : Nat), (readBytes m a n).length = n
  | 0, _ => rfl
  | n + 1, a => by simp [readBytes, readBytes_length m n (a + 1)]

theorem rustSlice_ok (xs : List Nat) (start stop : Nat) (s : St)
    (h1 : start ≤ stop) (h2 : stop ≤ xs.length) :
    rustSlice xs start stop s = (Except.ok ((xs.drop start).take (stop - start)), s) := by
  simp [rustSlice, h1, h2, M.pure]

theorem copy_from_slice_ok (dst : List Nat) (start stop : Nat) (src : List Nat) (s : St)
    (h1 : start ≤ stop) (h2 : stop ≤ dst.length) (h3 : src.length = stop - start) :
    copy_from_slice dst start stop src s = (Except.ok (dst.take start ++ src ++ dst.drop stop), s) := by
  simp [copy_from_slice, h1, h2, h3, M.pure]

theorem chunk_copy (tail src : List Nat) (ht : tail.length = 8) :
    (FEATURES_IN :: tail).take 1 ++ src ++ (FEATURES_IN :: tail).drop 9 = FEATURES_IN :: src := by
  simp [List.drop_eq_nil_of_le, ht]

theorem St.upd_self (s : St) : s.upd s.dev [] 0 = s := by
  simp [St.upd]

set_option maxHeartbeats 1000000 in
theorem burstWriteChunks_ok (n : Nat) : ∀ (chunk_i a : Nat) (tail buf : List Nat) (s : St),
    s.failAt = none →
    s.dev.reg5B = (split_feature_conf_data_address a).1 →
    s.dev.reg5C = (split_feature_conf_data_address a).2 →
    a % 2 = 0 → a + 8 * n ≤ 8192 →
    tail.length = 8 →
    (chunk_i + n) * 8 ≤ buf.length →
    burstWriteChunks buf n chunk_i (FEATURES_IN :: tail) s =
      (Except.ok (FEATURES_IN :: writeLoopTail tail buf n chunk_i),
       s.upd ⟨s.dev.pwrConf, (split_feature_conf_data_address (a + 8 * n)).1, (split_feature_conf_data_address (a + 8 * n)).2, writeLoopMem s.dev.mem buf n a chunk_i⟩ (writeChunkTrace buf n a chunk_i) (5 * n)) := by
  induction n with
  | zero =>
    intro chunk_i a tail buf s h h5B h5C h2 hbound htail hbuf
    simp only [burstWriteChunks, M.pure, writeChunkTrace, writeLoopTail, writeLoopMem,
      Nat.mul_zero, Nat.add_zero]
    rw [← h5B, ← h5C]
    rw [St.upd_self]
  | succ n IH =>
    intro chunk_i a tail buf s h h5B h5C h2 hbound htail hbuf
    have hlt : a < 8192 := by omega
    have hslice : chunk_i * 8 + 8 ≤ buf.length := by omega
    simp only [burstWriteChunks, FEATURE_RW_SIZE]
    rw [M.bind_ok _ (rustSlice_ok buf (chunk_i * 8) (chunk_i * 8 + 8) s (by omega) hslice)]
    have hsub : chunk_i * 8 + 8 - chunk_i * 8 = 8 := by omega
    rw [hsub]
    have hsrclen : ((buf.drop (chunk_i * 8)).take 8).length = 8 := by
      simp [List.length_take, List.length_drop]
      omega
    rw [M.bind_ok _ (copy_from_slice_ok (FEATURES_IN :: tail) 1 9
      ((buf.drop (chunk_i * 8)).take 8) s (by omega) (by simp [htail]) (by rw [hsrclen]))]
    rw [chunk_copy _ _ htail]
    rw [M.bind_ok _ (write_ok _ _ h)]
    rw [devWrite_port]
    rw [M.bind_ok _ (incr_ok a _ (by simp [h]) (by simp [h5B]) (by simp [h5C]) h2 hlt)]
    have h8 : (a + 8) % 2 = 0 := by omega
    rw [IH (chunk_i + 1) (a + 8) ((buf.drop (chunk_i * 8)).take 8) buf _
      (by simp [h]) (by simp) (by simp) h8 (by omega) hsrclen (by omega)]
    simp only [St.upd_upd, St.upd_dev]
    have harith : a + 8 + 8 * n = a + 8 * (n + 1) := by omega
    rw [harith]
    have hjoin : join_feature_conf_data_address s.dev.reg5B s.dev.reg5C = a := by
      rw [h5B, h5C, join_split a h2 hlt]
    rw [hjoin]
    simp only [writeChunkTrace, writeLoopTail, writeLoopMem, List.append_assoc, List.cons_append,
      List.nil_append]
    have hk : 1 + 4 + 5 * n = 5 * (n + 1) := by omega
    rw [hk]

theorem readLoopBuf_length (m : Nat → Nat) : ∀ (n chunk_i a : Nat) (buf : List Nat),
    (chunk_i + n) * 8 ≤ buf.length →
    (readLoopBuf m buf n a chunk_i).length = buf.length := by
  intro n
  induction n with
  | zero => intro chunk_i a buf hb; rfl
  | succ n IH =>
    intro chunk_i a buf hb
    have hstep : (buf.take (chunk_i * 8) ++ readBytes m a 8 ++ buf.drop (chunk_i * 8 + 8)).length = buf.length := by
      simp [List.length_take, List.length_drop, readBytes_length]
      omega
    simp only [readLoopBuf]
    rw [IH (chunk_i + 1) (a + 8) _ (by rw [hstep]; omega), hstep]

set_option maxHeartbeats 1000000 in
theorem burstReadChunks_ok (n : Nat) : ∀ (chunk_i a : Nat) (buf : List Nat) (s : St),
    s.failAt = none →
    s.dev.reg5B = (split_feature_conf_data_address a).1 →
    s.dev.reg5C = (split_feature_conf_data_address a).2 →
    a % 2 = 0 → a + 8 * n ≤ 8192 →
    (chunk_i + n) * 8 ≤ buf.length →
    burstReadChunks n chunk_i buf s =
      (Except.ok (readLoopBuf s.dev.mem buf n a chunk_i),
       s.upd ⟨s.dev.pwrConf, (split_feature_conf_data_address (a + 8 * n)).1, (split_feature_conf_data_address (a + 8 * n)).2, s.dev.mem⟩ (readChunkTrace s.dev.mem n a) (5 * n)) := by
  induction n with
  | zero =>
    intro chunk_i a buf s h h5B h5C h2 hbound hbuf
    simp only [burstReadChunks, M.pure, readChunkTrace, readLoopBuf, Nat.mul_zero, Nat.add_zero]
    rw [← h5B, ← h5C]
    rw [St.upd_self]
  | succ n IH =>
    intro chunk_i a buf s h h5B h5C h2 hbound hbuf
    have hlt : a < 8192 := by omega
    have hslice : chunk_i * 8 + 8 ≤ buf.length := by omega
    have hjoin : join_feature_conf_data_address s.dev.reg5B s.dev.reg5C = a := by
      rw [h5B, h5C, join_split a h2 hlt]
    simp only [burstReadChunks, FEATURE_RW_SIZE]
    rw [M.bind_ok _ (read_registers_ok FEATURES_IN 8 s h)]
    rw [devRead_port, hjoin]
    rw [M.bind_ok _ (copy_from_slice_ok buf (chunk_i * 8) (chunk_i * 8 + 8)
      (readBytes s.dev.mem a 8) _ (by omega) (by simp [hslice]) (by simp [readBytes_length]))]
    rw [M.bind_ok _ (incr_ok a _ (by simp [h]) (by simp [h5B]) (by simp [h5C]) h2 hlt)]
    have h8 : (a + 8) % 2 = 0 := by omega
    have hstep : (buf.take (chunk_i * 8) ++ readBytes s.dev.mem a 8 ++ buf.drop (chunk_i * 8 + 8)).length = buf.length := by
      simp [List.length_take, List.length_drop, readBytes_length]
      omega
    rw [IH (chunk_i + 1) (a + 8) _ _
      (by simp [h]) (by simp) (by simp) h8 (by omega) (by rw [hstep]; omega)]
    simp only [St.upd_upd, St.upd_dev]
    have harith : a + 8 + 8 * n = a + 8 * (n + 1) := by omega
    rw [harith]
    simp only [readChunkTrace, readLoopBuf, List.append_assoc, List.cons_append, List.nil_append]
    have hk : 1 + 4 + 5 * n = 5 * (n + 1) := by omega
    rw [hk]

set_option maxHeartbeats 1000000 in
theorem burst_write_features_ok (start : Nat) (buf : List Nat) (s : St)
    (h : s.failAt = none) (h8 : buf.length % 8 = 0) (h2 : start % 2 = 0)
    (hb : start + buf.length ≤ 8192) :
    burst_write_features start buf s =
      (Except.ok (), s.upd ⟨s.dev.pwrConf, (split_feature_conf_data_address (start + buf.length)).1, (split_feature_conf_data_address (start + buf.length)).2, writeLoopMem s.dev.mem buf (buf.length / 8) start 0⟩ (burstWriteTrace buf start) (2 + 5 * (buf.length / 8))) := by
  have hev : buf.length % 2 = 0 := by omega
  unfold burst_write_features
  simp only [hev, if_true, FEATURE_RW_SIZE]
  rw [M.bind_ok _ (set_feature_config_data_addr_ok start s h)]
  rw [M.bind_ok _ (burstWriteChunks_ok (buf.length / 8) 0 start (List.replicate 8 0) buf _
    (by simp [h]) (by simp) (by simp) h2 (by omega) (by simp) (by omega))]
  simp only [h8, Nat.lt_irrefl, if_false, St.upd_upd, St.upd_dev, gt_iff_lt]
  have hlen : start + 8 * (buf.length / 8) = start + buf.length := by omega
  rw [hlen]
  simp [M.pure, burstWriteTrace, List.append_assoc]

set_option maxHeartbeats 1000000 in
theorem burst_read_features_ok (start : Nat) (buf : List Nat) (s : St)
    (h : s.failAt = none) (hev : buf.length % 2 = 0) (h2 : start % 2 = 0)
    (hb : start + buf.length ≤ 8192) :
    burst_read_features start buf s =
      (Except.ok (burstReadResultBuf s.dev.mem buf start),
       s.upd ⟨s.dev.pwrConf, (split_feature_conf_data_address (start + 8 * (buf.length / 8))).1, (split_feature_conf_data_address (start + 8 * (buf.length / 8))).2, s.dev.mem⟩ (burstReadTrace s.dev.mem start buf.length) (burstReadTxCount buf.length)) := by
  unfold burst_read_features
  simp only [hev, if_true, FEATURE_RW_SIZE]
  rw [M.bind_ok _ (set_feature_config_data_addr_ok start s h)]
  rw [M.bind_ok _ (burstReadChunks_ok (buf.length / 8) 0 start buf _
    (by simp [h]) (by simp) (by simp) h2 (by omega) (by omega))]
  simp only [St.upd_upd, St.upd_dev, FEATURE_RW_SIZE]
  by_cases ho : buf.length % 8 = 0
  · simp only [ho, Nat.lt_irrefl, if_false, gt_iff_lt]
    simp [M.pure, burstReadResultBuf, burstReadTrace, burstReadTxCount, ho, List.append_assoc]
  · have hpos : 0 < buf.length % 8 := by omega
    simp only [gt_iff_lt, hpos, if_true]
    have hblen : (readLoopBuf s.dev.mem buf (buf.length / 8) start 0).length = buf.length :=
      readLoopBuf_length s.dev.mem (buf.length / 8) 0 start buf (by omega)
    have hread : start + 8 * (buf.length / 8) < 8192 := by omega
    have hreven : (start + 8 * (buf.length / 8)) % 2 = 0 := by omega
    rw [M.bind_ok _ (read_registers_ok FEATURES_IN (buf.length % 8) _ (by simp [h]))]
    simp only [St.upd_dev, devRead_port]
    have hjoin2 : join_feature_conf_data_address (split_feature_conf_data_address (start + 8 * (buf.length / 8))).1 (split_feature_conf_data_address (start + 8 * (buf.length / 8))).2 = start + 8 * (buf.length / 8) :=
      join_split _ hreven hread
    rw [hjoin2]
    rw [copy_from_slice_ok _ _ _ _ _ (by omega) (by rw [hblen]) (by simp [readBytes_length]; omega)]
    simp only [St.upd_upd, St.upd_dev]
    simp [M.pure, burstReadResultBuf, burstReadTrace, burstReadTxCount, ho, List.append_assoc]

theorem START_val : feature_offset.START = 6136 := rfl

set_option maxHeartbeats 1000000 in
theorem read_features_aps_on (buf : List Nat) (s : St)
    (h : s.failAt = none) (hp : s.dev.pwrConf &&& 1 = 1)
    (hev : buf.length % 2 = 0) (hb : feature_offset.START + buf.length ≤ 8192) :
    read_features buf s =
      (Except.ok (burstReadResultBuf s.dev.mem buf feature_offset.START),
       s.upd ⟨s.dev.pwrConf &&& 3, (split_feature_conf_data_address (feature_offset.START + 8 * (buf.length / 8))).1, (split_feature_conf_data_address (feature_offset.START + 8 * (buf.length / 8))).2, s.dev.mem⟩ (Event.readTx PWR_CONF [s.dev.pwrConf] :: Event.writeTx [PWR_CONF, s.dev.pwrConf &&& 2] :: Event.delayUs SENSOR_TIME_SYNCHRONIZATION_US :: (burstReadTrace s.dev.mem feature_offset.START buf.length ++ [Event.writeTx [PWR_CONF, s.dev.pwrConf &&& 3], Event.delayUs SENSOR_TIME_SYNCHRONIZATION_US])) (2 + burstReadTxCount buf.length + 1)) := by
  unfold read_features
  rw [M.bind_ok _ (disable_aps_on s h hp)]
  rw [M.bind_ok _ (burst_read_features_ok feature_offset.START buf _
    (by simp [h]) hev (by rw [START_val]) (by simpa using hb))]
  simp only [St.upd_upd, St.upd_dev, powerModeContains_trunc, hp, beq_self_eq_true, if_true]
  rw [M.bind_ok _ (restore_ok (s.dev.pwrConf &&& 3) _ (by simp [h]))]
  simp only [M.run_pure, St.upd_upd, St.upd_dev]
  simp [List.append_assoc]

set_option maxHeartbeats 1000000 in
theorem read_features_aps_off (buf : List Nat) (s : St)
    (h : s.failAt = none) (hp : s.dev.pwrConf &&& 1 = 0)
    (hev : buf.length % 2 = 0) (hb : feature_offset.START + buf.length ≤ 8192) :
    read_features buf s =
      (Except.ok (burstReadResultBuf s.dev.mem buf feature_offset.START),
       s.upd ⟨s.dev.pwrConf, (split_feature_conf_data_address (feature_offset.START + 8 * (buf.length / 8))).1, (split_feature_conf_data_address (feature_offset.START + 8 * (buf.length / 8))).2, s.dev.mem⟩ (Event.readTx PWR_CONF [s.dev.pwrConf] :: burstReadTrace s.dev.mem feature_offset.START buf.length) (1 + burstReadTxCount buf.length)) := by
  unfold read_features
  rw [M.bind_ok _ (disable_aps_off s h hp)]
  rw [M.bind_ok _ (burst_read_features_ok feature_offset.START buf _
    (by simp [h]) hev (by rw [START_val]) (by simpa using hb))]
  simp only [St.upd_upd, St.upd_dev, powerModeContains_trunc, hp]
  have : ((0 : Nat) == 1) = false := by decide
  simp [this, M.run_pure, St.upd_upd, List.append_assoc]

theorem burstReadResultBuf_length_mul8 (m : Nat → Nat) (buf : List Nat) (start : Nat)
    (h8 : buf.length % 8 = 0) :
    (burstReadResultBuf m buf start).length = buf.length := by
  simp [burstReadResultBuf, h8, readLoopBuf_length m (buf.length / 8) 0 start buf (by omega)]

set_option maxHeartbeats 600000 in
theorem set_features_aps_on (f : List Nat → List Nat) (s : St)
    (h : s.failAt = none) (hp : s.dev.pwrConf &&& 1 = 1)
    (hf : (f (burstReadResultBuf s.dev.mem (List.replicate FEATURE_SIZE 0) feature_offset.START)).length = 64) :
    set_features f s =
      (Except.ok (),
       s.upd ⟨s.dev.pwrConf &&& 3, (split_feature_conf_data_address (feature_offset.START + 64)).1, (split_feature_conf_data_address (feature_offset.START + 64)).2, writeLoopMem s.dev.mem (f (burstReadResultBuf s.dev.mem (List.replicate FEATURE_SIZE 0) feature_offset.START)) 8 feature_offset.START 0⟩ (Event.readTx PWR_CONF [s.dev.pwrConf] :: Event.writeTx [PWR_CONF, s.dev.pwrConf &&& 2] :: Event.delayUs SENSOR_TIME_SYNCHRONIZATION_US :: (burstReadTrace s.dev.mem feature_offset.START 64 ++ (burstWriteTrace (f (burstReadResultBuf s.dev.mem (List.replicate FEATURE_SIZE 0) feature_offset.START)) feature_offset.START ++ [Event.writeTx [PWR_CONF, s.dev.pwrConf &&& 3], Event.delayUs SENSOR_TIME_SYNCHRONIZATION_US]))) (2 + burstReadTxCount 64 + (2 + 5 * 8) + 1)) := by
  unfold set_features
  rw [M.bind_ok _ (disable_aps_on s h hp)]
  rw [M.bind_ok _ (burst_read_features_ok feature_offset.START (List.replicate FEATURE_SIZE 0) _
    (by simp [h]) (by simp [FEATURE_SIZE]) (by rw [START_val]) (by simp [FEATURE_SIZE, START_val]))]
  simp only [St.upd_upd, St.upd_dev, List.length_replicate]
  have hcond : powerModeContains (s.dev.pwrConf &&& 3) ADVANCED_POWER_SAVE = true := by
    rw [powerModeContains_trunc, hp]; rfl
  rw [hcond]
  have hw := burst_write_features_ok feature_offset.START
    (f (burstReadResultBuf s.dev.mem (List.replicate FEATURE_SIZE 0) feature_offset.START))
    (s.upd ⟨s.dev.pwrConf &&& 2, (split_feature_conf_data_address (feature_offset.START + 8 * (FEATURE_SIZE / 8))).1, (split_feature_conf_data_address (feature_offset.START + 8 * (FEATURE_SIZE / 8))).2, s.dev.mem⟩ ([Event.readTx PWR_CONF [s.dev.pwrConf], Event.writeTx [PWR_CONF, s.dev.pwrConf &&& 2], Event.delayUs SENSOR_TIME_SYNCHRONIZATION_US] ++ burstReadTrace s.dev.mem feature_offset.START FEATURE_SIZE) (2 + burstReadTxCount FEATURE_SIZE))
    (by rw [St.upd_failAt]; exact h) (by simp only [hf]) (by rw [START_val]) (by rw [hf, START_val]; omega)
  rw [M.bind_ok _ hw]
  rw [if_pos rfl]
  rw [restore_ok (s.dev.pwrConf &&& 3) _ (by rw [St.upd_failAt, St.upd_failAt]; exact h)]
  rw [St.upd_upd, St.upd_upd]
  congr 1
  congr 1
  all_goals first
    | rfl
    | rw [hf]
  all_goals first
    | decide
    | (rw [St.upd_dev, St.upd_dev]; try exact rfl)

set_option maxHeartbeats 600000 in
theorem set_features_aps_off (f : List Nat → List Nat) (s : St)
    (h : s.failAt = none) (hp : s.dev.pwrConf &&& 1 = 0)
    (hf : (f (burstReadResultBuf s.dev.mem (List.replicate FEATURE_SIZE 0) feature_offset.START)).length = 64) :
    set_features f s =
      (Except.ok (),
       s.upd ⟨s.dev.pwrConf, (split_feature_conf_data_address (feature_offset.START + 64)).1, (split_feature_conf_data_address (feature_offset.START + 64)).2, writeLoopMem s.dev.mem (f (burstReadResultBuf s.dev.mem (List.replicate FEATURE_SIZE 0) feature_offset.START)) 8 feature_offset.START 0⟩ (Event.readTx PWR_CONF [s.dev.pwrConf] :: (burstReadTrace s.dev.mem feature_offset.START 64 ++ burstWriteTrace (f (burstReadResultBuf s.dev.mem (List.replicate FEATURE_SIZE 0) feature_offset.START)) feature_offset.START)) (1 + burstReadTxCount 64 + (2 + 5 * 8))) := by
  unfold set_features
  rw [M.bind_ok _ (disable_aps_off s h hp)]
  rw [M.bind_ok _ (burst_read_features_ok feature_offset.START (List.replicate FEATURE_SIZE 0) _
    (by simp [h]) (by simp [FEATURE_SIZE]) (by rw [START_val]) (by simp [FEATURE_SIZE, START_val]))]
  simp only [St.upd_upd, St.upd_dev, List.length_replicate]
  have hcond : powerModeContains (s.dev.pwrConf &&& 3) ADVANCED_POWER_SAVE = false := by
    rw [powerModeContains_trunc, hp]; rfl
  rw [hcond]
  have hw := burst_write_features_ok feature_offset.START
    (f (burstReadResultBuf s.dev.mem (List.replicate FEATURE_SIZE 0) feature_offset.START))
    (s.upd ⟨s.dev.pwrConf, (split_feature_conf_data_address (feature_offset.START + 8 * (FEATURE_SIZE / 8))).1, (split_feature_conf_data_address (feature_offset.START + 8 * (FEATURE_SIZE / 8))).2, s.dev.mem⟩ ([Event.readTx PWR_CONF [s.dev.pwrConf]] ++ burstReadTrace s.dev.mem feature_offset.START FEATURE_SIZE) (1 + burstReadTxCount FEATURE_SIZE))
    (by rw [St.upd_failAt]; exact h) (by simp only [hf]) (by rw [START_val]) (by rw [hf, START_val]; omega)



  rw [M.bind_ok _ hw]
  rw [if_neg Bool.false_ne_true]
  rw [M.run_pure]
  rw [St.upd_upd]
  congr 1
  congr 1
  all_goals first
    | rfl
    | rw [hf]
  all_goals first
    | decide
    | (rw [St.upd_dev]; try exact rfl)

/-! ## Claim theorems -/

/-- C4: for every even address addr in [0, 510], decoding the two-register
encoding of addr yields addr again: `join_feature_conf_data_address` applied
to the pair produced by `split_feature_conf_data_address` is the identity on
even addresses in that range. -/
theorem c4_codec_roundtrip (addr : Nat) (h2 : addr % 2 = 0) (hle : addr ≤ 510) :
    join_feature_conf_data_address
      (split_feature_conf_data_address addr).1
      (split_feature_conf_data_address addr).2 = addr :=
  join_split addr h2 (by omega)

theorem c4_codec_roundtrip_witness :
    510 % 2 = 0 ∧ 510 ≤ 510 ∧
    join_feature_conf_data_address
      (split_feature_conf_data_address 510).1
      (split_feature_conf_data_address 510).2 = 510 :=
  ⟨by decide, by decide, c4_codec_roundtrip 510 (by decide) (by decide)⟩

/-- C9: the pointer codec round-trip holds on the strictly larger domain of
even addresses in [0, 8190]; in particular the feature window start
`feature_offset.START` = 0x17F8 = 6136 lies outside [0, 510] and
round-trips correctly. -/
theorem c9_codec_roundtrip_extended :
    (∀ addr : Nat, addr % 2 = 0 → addr ≤ 8190 →
      join_feature_conf_data_address
        (split_feature_conf_data_address addr).1
        (split_feature_conf_data_address addr).2 = addr) ∧
    510 < feature_offset.START ∧
    feature_offset.START = 6136 ∧
    join_feature_conf_data_address
      (split_feature_conf_data_address feature_offset.START).1
      (split_feature_conf_data_address feature_offset.START).2 = feature_offset.START := by
  refine ⟨fun addr h2 hle => join_split addr h2 (by omega), by decide, rfl, ?_⟩
  exact join_split _ (by decide) (by decide)

theorem c9_codec_roundtrip_extended_witness :
    8190 % 2 = 0 ∧ 8190 ≤ 8190 ∧
    join_feature_conf_data_address
      (split_feature_conf_data_address 8190).1
      (split_feature_conf_data_address 8190).2 = 8190 :=
  ⟨by decide, by decide, c9_codec_roundtrip_extended.1 8190 (by decide) (by decide)⟩

/-- C2 (code bug): a chunked burst write whose even length is not a multiple
of 8 panics in the final-partial-chunk copy (`chunk[1..overflow]` has length
`overflow - 1` while the source slice has length `overflow`), so
write-then-read cannot round-trip for lengths 10 or 14; the loop's full
chunks and the pointer setup do complete before the panic (7 transactions
for length 10). -/
theorem c2_partial_write_panics :
    (burst_write_features 100 (List.replicate 10 0) ⟨testDevice, [], none, 0⟩).1 =
      Except.error Err.panicked ∧
    (burst_write_features 100 (List.replicate 10 0) ⟨testDevice, [], none, 0⟩).2.events.length = 7 ∧
    (burst_write_features 100 (List.replicate 14 0) ⟨testDevice, [], none, 0⟩).1 =
      Except.error Err.panicked ∧
    (burst_write_features 6136 (List.replicate 64 0) ⟨testDevice, [], none, 0⟩).1 =
      Except.ok () := by
  refine ⟨by decide, by decide, by decide, ?_⟩
  rw [burst_write_features_ok 6136 _ _ rfl (by decide) (by decide) (by decide)]

/-- C3 counterexample: an odd start offset is not rejected: the region read
at odd offset 5 succeeds, issues two pointer-register bus writes, and the
pointer encodes 4, the next lower even address (silent rounding). -/
theorem c3_odd_offset_counterexample :
    (burst_read_features 5 [] ⟨testDevice, [], none, 0⟩).1 = Except.ok [] ∧
    (burst_read_features 5 [] ⟨testDevice, [], none, 0⟩).2.events =
      [Event.writeTx [RESERVED_REG_5B, 2], Event.writeTx [RESERVED_REG_5C, 0]] ∧
    join_feature_conf_data_address 2 0 = 4 := by
  refine ⟨by decide, by decide, by decide⟩

/-- C3 amended: an odd buffer length fails fast (assertion) with no bus
transaction issued and the state unchanged, for both the region read and the
region write; an odd start offset is not validated: it is encoded as the
next lower even address (`split` of an odd address equals `split` of its
predecessor). -/
theorem c3_odd_rejection_amended :
    (∀ (start : Nat) (buf : List Nat) (s : St), buf.length % 2 = 1 →
      burst_read_features start buf s = (Except.error Err.panicked, s)) ∧
    (∀ (start : Nat) (buf : List Nat) (s : St), buf.length % 2 = 1 →
      burst_write_features start buf s = (Except.error Err.panicked, s)) ∧
    (∀ a : Nat, a % 2 = 1 →
      split_feature_conf_data_address a = split_feature_conf_data_address (a - 1)) := by
  refine ⟨?_, ?_, fun a ha => split_odd_rounds_down a ha⟩
  · intro start buf s hodd
    have hne : ¬(buf.length % 2 = 0) := by omega
    simp [burst_read_features, hne, rustPanic]
  · intro start buf s hodd
    have hne : ¬(buf.length % 2 = 0) := by omega
    simp [burst_write_features, hne, rustPanic]

theorem c3_odd_rejection_amended_witness :
    ([0] : List Nat).length % 2 = 1 ∧
    burst_read_features 5 [0] ⟨testDevice, [], none, 0⟩ =
      (Except.error Err.panicked, ⟨testDevice, [], none, 0⟩) ∧
    5 % 2 = 1 ∧
    split_feature_conf_data_address 5 = split_feature_conf_data_address 4 :=
  ⟨by decide, c3_odd_rejection_amended.1 5 [0] _ (by decide), by decide,
    c3_odd_rejection_amended.2.2 5 (by decide)⟩

/-- C5: a 64-byte burst write starting at the feature window start offset
0x17F8 issues exactly 8 port-write transactions, each prefixed with the
FEATURES_IN register address and carrying the k-th 8-byte chunk of the
buffer, and the pointer register pair in effect before the k-th port write
encodes 0x17F8 + 8k. -/
theorem c5_write64_chunking (dev : Device) (buf : List Nat) (hlen : buf.length = 64) :
    (burst_write_features feature_offset.START buf ⟨dev, [], none, 0⟩).1 = Except.ok () ∧
    portWriteTxs (burst_write_features feature_offset.START buf ⟨dev, [], none, 0⟩).2.events =
      (List.range 8).map (fun k => FEATURES_IN :: (buf.drop (8 * k)).take 8) ∧
    (portWriteTxs (burst_write_features feature_offset.START buf ⟨dev, [], none, 0⟩).2.events).length = 8 ∧
    pointerLog (burst_write_features feature_offset.START buf ⟨dev, [], none, 0⟩).2.events dev.reg5B dev.reg5C =
      (List.range 8).map (fun k => feature_offset.START + 8 * k) := by
  rw [burst_write_features_ok feature_offset.START buf _ rfl (by rw [hlen]) (by rw [START_val])
    (by rw [hlen, START_val]; omega)]
  simp only [St.upd_events, burstWriteTrace, hlen]
  refine ⟨?_, ?_, ?_, ?_⟩ <;> first | rfl | trivial

theorem c5_write64_chunking_witness :
    (List.replicate 64 0 : List Nat).length = 64 ∧
    portWriteTxs (burst_write_features feature_offset.START (List.replicate 64 0) ⟨testDevice, [], none, 0⟩).2.events =
      (List.range 8).map (fun k => FEATURES_IN :: ((List.replicate 64 0 : List Nat).drop (8 * k)).take 8) ∧
    pointerLog (burst_write_features feature_offset.START (List.replicate 64 0) ⟨testDevice, [], none, 0⟩).2.events testDevice.reg5B testDevice.reg5C =
      (List.range 8).map (fun k => feature_offset.START + 8 * k) :=
  ⟨by decide, (c5_write64_chunking testDevice (List.replicate 64 0) (by decide)).2.1,
    (c5_write64_chunking testDevice (List.replicate 64 0) (by decide)).2.2.2⟩

/-- C6: a burst read of even length 10 at offset 100 issues one full 8-byte
port read at pointer 100, advances the pointer by 8 (the two pointer
registers are rewritten to encode 108), then issues exactly one final port
read of length 2 at pointer 108. -/
theorem c6_partial_read_chunking (dev : Device) (buf : List Nat) (hlen : buf.length = 10) :
    (burst_read_features 100 buf ⟨dev, [], none, 0⟩).1 =
      Except.ok (burstReadResultBuf dev.mem buf 100) ∧
    (burst_read_features 100 buf ⟨dev, [], none, 0⟩).2.events =
      setPtrTrace 100 ++
        (Event.readTx FEATURES_IN (readBytes dev.mem 100 8) :: incrTrace 100) ++
        [Event.readTx FEATURES_IN (readBytes dev.mem 108 2)] ∧
    portReadLog (burst_read_features 100 buf ⟨dev, [], none, 0⟩).2.events dev.reg5B dev.reg5C =
      [(100, 8), (108, 2)] := by
  rw [burst_read_features_ok 100 buf _ rfl (by rw [hlen]) (by decide) (by rw [hlen]; decide)]
  simp only [St.upd_events, burstReadTrace, hlen]
  refine ⟨?_, ?_, ?_⟩ <;> first | rfl | trivial

theorem c6_partial_read_chunking_witness :
    (List.replicate 10 0 : List Nat).length = 10 ∧
    portReadLog (burst_read_features 100 (List.replicate 10 0) ⟨testDevice, [], none, 0⟩).2.events testDevice.reg5B testDevice.reg5C =
      [(100, 8), (108, 2)] :=
  ⟨by decide, (c6_partial_read_chunking testDevice (List.replicate 10 0) (by decide)).2.2⟩

/-! ## Power-register write observer lemmas -/

theorem pwrWrites_append (a b : List Event) :
    pwrWrites (a ++ b) = pwrWrites a ++ pwrWrites b := by
  simp [pwrWrites]

theorem pwrWrites_cons_read (r : Nat) (out : List Nat) (evs : List Event) :
    pwrWrites (Event.readTx r out :: evs) = pwrWrites evs := by
  simp [pwrWrites]

theorem pwrWrites_cons_delayUs (us : Nat) (evs : List Event) :
    pwrWrites (Event.delayUs us :: evs) = pwrWrites evs := by
  simp [pwrWrites]

theorem pwrWrites_cons_pwr (v : Nat) (evs : List Event) :
    pwrWrites (Event.writeTx [PWR_CONF, v] :: evs) = [PWR_CONF, v] :: pwrWrites evs := by
  simp [pwrWrites]

theorem pwrWrites_setPtrTrace (a : Nat) : pwrWrites (setPtrTrace a) = [] := by
  simp [pwrWrites, setPtrTrace, RESERVED_REG_5B, RESERVED_REG_5C, PWR_CONF]

theorem pwrWrites_incrTrace (a : Nat) : pwrWrites (incrTrace a) = [] := by
  simp [pwrWrites, incrTrace, setPtrTrace, RESERVED_REG_5B, RESERVED_REG_5C, PWR_CONF]

theorem pwrWrites_writeChunkTrace (buf : List Nat) :
    ∀ (n a chunk_i : Nat), pwrWrites (writeChunkTrace buf n a chunk_i) = [] := by
  intro n
  induction n with
  | zero => intro a chunk_i; rfl
  | succ n IH =>
    intro a chunk_i
    simp only [writeChunkTrace]
    rw [show (Event.writeTx (FEATURES_IN :: (buf.drop (chunk_i * 8)).take 8)
        :: (incrTrace a ++ writeChunkTrace buf n (a + 8) (chunk_i + 1)))
      = [Event.writeTx (FEATURES_IN :: (buf.drop (chunk_i * 8)).take 8)]
        ++ incrTrace a ++ writeChunkTrace buf n (a + 8) (chunk_i + 1) by simp]
    rw [pwrWrites_append, pwrWrites_append, pwrWrites_incrTrace, IH]
    simp [pwrWrites, FEATURES_IN, PWR_CONF]

theorem pwrWrites_readChunkTrace (m : Nat → Nat) :
    ∀ (n a : Nat), pwrWrites (readChunkTrace m n a) = [] := by
  intro n
  induction n with
  | zero => intro a; rfl
  | succ n IH =>
    intro a
    simp only [readChunkTrace]
    rw [pwrWrites_cons_read, pwrWrites_append, pwrWrites_incrTrace, IH]
    rfl

theorem pwrWrites_burstReadTrace (m : Nat → Nat) (start len : Nat) :
    pwrWrites (burstReadTrace m start len) = [] := by
  unfold burstReadTrace
  rw [pwrWrites_append, pwrWrites_append, pwrWrites_setPtrTrace, pwrWrites_readChunkTrace]
  by_cases h : len % 8 = 0 <;> simp [h, pwrWrites, FEATURES_IN, PWR_CONF]

theorem pwrWrites_burstWriteTrace (buf : List Nat) (start : Nat) :
    pwrWrites (burstWriteTrace buf start) = [] := by
  unfold burstWriteTrace
  rw [pwrWrites_append, pwrWrites_setPtrTrace, pwrWrites_writeChunkTrace]
  rfl

/-- C7: if the advanced-power-save bit is OFF when a feature transaction
(read_features / set_features) begins, no write to the power-mode register
occurs during the entire call: the acquire step only reads PWR_CONF and the
restore step is skipped. -/
theorem c7_no_power_write_when_off :
    (∀ (dev : Device) (buf : List Nat), dev.pwrConf &&& 1 = 0 → buf.length = 64 →
      (read_features buf ⟨dev, [], none, 0⟩).1 =
        Except.ok (burstReadResultBuf dev.mem buf feature_offset.START) ∧
      (read_features buf ⟨dev, [], none, 0⟩).2.events =
        Event.readTx PWR_CONF [dev.pwrConf] :: burstReadTrace dev.mem feature_offset.START 64 ∧
      pwrWrites (read_features buf ⟨dev, [], none, 0⟩).2.events = []) ∧
    (∀ (dev : Device) (f : List Nat → List Nat), dev.pwrConf &&& 1 = 0 →
      (f (burstReadResultBuf dev.mem (List.replicate FEATURE_SIZE 0) feature_offset.START)).length = 64 →
      (set_features f ⟨dev, [], none, 0⟩).1 = Except.ok () ∧
      pwrWrites (set_features f ⟨dev, [], none, 0⟩).2.events = []) := by
  constructor
  · intro dev buf hp hlen
    rw [read_features_aps_off buf ⟨dev, [], none, 0⟩ rfl hp (by rw [hlen]) (by rw [hlen, START_val]; omega)]
    simp only [St.upd_events, hlen, List.nil_append]
    refine ⟨trivial, trivial, ?_⟩
    rw [pwrWrites_cons_read, pwrWrites_burstReadTrace]
  · intro dev f hp hf
    rw [set_features_aps_off f ⟨dev, [], none, 0⟩ rfl hp hf]
    simp only [St.upd_events, List.nil_append]
    refine ⟨trivial, ?_⟩
    rw [pwrWrites_cons_read, pwrWrites_append, pwrWrites_burstReadTrace,
      pwrWrites_burstWriteTrace]
    rfl

set_option maxRecDepth 20000 in
set_option maxHeartbeats 1000000 in
theorem c7_no_power_write_when_off_witness :
    testDeviceOff.pwrConf &&& 1 = 0 ∧
    pwrWrites (read_features (List.replicate 64 0) ⟨testDeviceOff, [], none, 0⟩).2.events = [] ∧
    pwrWrites (set_features id ⟨testDeviceOff, [], none, 0⟩).2.events = [] :=
  ⟨by decide,
    (c7_no_power_write_when_off.1 testDeviceOff (List.replicate 64 0) (by decide) (by decide)).2.2,
    (c7_no_power_write_when_off.2 testDeviceOff id (by decide) (by decide)).2⟩

/-- C8: whenever the advanced-power-save bit is cleared at the start of a
feature transaction, the fixed 450-microsecond sensor-time-synchronization
delay immediately follows the clearing write, before any further register
access, and the same delay is performed again right after the power-mode
restore write at the end (both for read_features and set_features). -/
theorem c8_sync_delay_bracket :
    (∀ (dev : Device) (buf : List Nat), dev.pwrConf &&& 1 = 1 → buf.length = 64 →
      (read_features buf ⟨dev, [], none, 0⟩).2.events =
        Event.readTx PWR_CONF [dev.pwrConf] ::
          Event.writeTx [PWR_CONF, dev.pwrConf &&& 2] ::
            Event.delayUs SENSOR_TIME_SYNCHRONIZATION_US ::
              (burstReadTrace dev.mem feature_offset.START 64 ++
                [Event.writeTx [PWR_CONF, dev.pwrConf &&& 3],
                 Event.delayUs SENSOR_TIME_SYNCHRONIZATION_US])) ∧
    (∀ (dev : Device) (f : List Nat → List Nat), dev.pwrConf &&& 1 = 1 →
      (f (burstReadResultBuf dev.mem (List.replicate FEATURE_SIZE 0) feature_offset.START)).length = 64 →
      (set_features f ⟨dev, [], none, 0⟩).2.events =
        Event.readTx PWR_CONF [dev.pwrConf] ::
          Event.writeTx [PWR_CONF, dev.pwrConf &&& 2] ::
            Event.delayUs SENSOR_TIME_SYNCHRONIZATION_US ::
              (burstReadTrace dev.mem feature_offset.START 64 ++
                (burstWriteTrace (f (burstReadResultBuf dev.mem (List.replicate FEATURE_SIZE 0) feature_offset.START)) feature_offset.START ++
                  [Event.writeTx [PWR_CONF, dev.pwrConf &&& 3],
                   Event.delayUs SENSOR_TIME_SYNCHRONIZATION_US]))) ∧
    SENSOR_TIME_SYNCHRONIZATION_US = 450 := by
  refine ⟨?_, ?_, rfl⟩
  · intro dev buf hp hlen
    rw [read_features_aps_on buf ⟨dev, [], none, 0⟩ rfl hp (by rw [hlen]) (by rw [hlen, START_val]; omega)]
    simp only [St.upd_events, hlen, List.nil_append]
  · intro dev f hp hf
    rw [set_features_aps_on f ⟨dev, [], none, 0⟩ rfl hp hf]
    simp only [St.upd_events, List.nil_append]

set_option maxRecDepth 20000 in
set_option maxHeartbeats 1000000 in
theorem c8_sync_delay_bracket_witness :
    testDevice.pwrConf &&& 1 = 1 ∧
    (read_features (List.replicate 64 0) ⟨testDevice, [], none, 0⟩).2.events =
      Event.readTx PWR_CONF [testDevice.pwrConf] ::
        Event.writeTx [PWR_CONF, testDevice.pwrConf &&& 2] ::
          Event.delayUs SENSOR_TIME_SYNCHRONIZATION_US ::
            (burstReadTrace testDevice.mem feature_offset.START 64 ++
              [Event.writeTx [PWR_CONF, testDevice.pwrConf &&& 3],
               Event.delayUs SENSOR_TIME_SYNCHRONIZATION_US]) :=
  ⟨by decide, c8_sync_delay_bracket.1 testDevice (List.replicate 64 0) (by decide) (by decide)⟩

/-- C1 counterexample: with advanced power save ON (PWR_CONF = 1) and a bus
error injected at the first port read of the transfer, `read_features`
returns the bus error but the original power-mode value is NOT written
back: the only power-mode write in the trace is the clearing write, and the
device is left with PWR_CONF = 0 instead of 1. -/
theorem c1_restore_counterexample :
    (read_features (List.replicate 64 0) ⟨testDevice, [], some 4, 0⟩).1 =
      Except.error Err.bus ∧
    pwrWrites (read_features (List.replicate 64 0) ⟨testDevice, [], some 4, 0⟩).2.events =
      [[PWR_CONF, 0]] ∧
    (read_features (List.replicate 64 0) ⟨testDevice, [], some 4, 0⟩).2.dev.pwrConf = 0 ∧
    testDevice.pwrConf = 1 := by
  refine ⟨by decide, by decide, by decide, by decide⟩

/-- C1 amended: when advanced power save is set at the start of a feature
transaction and the chunked transfer succeeds, the truncated original
power-mode value is written back before the call returns (for both
read_features and set_features); when the transfer fails with a bus error,
the error is propagated but no restore write occurs (the clearing write is
the last power-mode write). -/
theorem c1_restore_amended :
    (∀ (dev : Device) (buf : List Nat), dev.pwrConf &&& 1 = 1 → buf.length = 64 →
      (read_features buf ⟨dev, [], none, 0⟩).1 =
        Except.ok (burstReadResultBuf dev.mem buf feature_offset.START) ∧
      pwrWrites (read_features buf ⟨dev, [], none, 0⟩).2.events =
        [[PWR_CONF, dev.pwrConf &&& 2], [PWR_CONF, dev.pwrConf &&& 3]] ∧
      (read_features buf ⟨dev, [], none, 0⟩).2.dev.pwrConf =
        powerModeFromBitsTruncate dev.pwrConf) ∧
    (∀ (dev : Device) (f : List Nat → List Nat), dev.pwrConf &&& 1 = 1 →
      (f (burstReadResultBuf dev.mem (List.replicate FEATURE_SIZE 0) feature_offset.START)).length = 64 →
      (set_features f ⟨dev, [], none, 0⟩).1 = Except.ok () ∧
      pwrWrites (set_features f ⟨dev, [], none, 0⟩).2.events =
        [[PWR_CONF, dev.pwrConf &&& 2], [PWR_CONF, dev.pwrConf &&& 3]] ∧
      (set_features f ⟨dev, [], none, 0⟩).2.dev.pwrConf =
        powerModeFromBitsTruncate dev.pwrConf) ∧
    ((read_features (List.replicate 64 0) ⟨testDevice, [], some 4, 0⟩).1 =
        Except.error Err.bus ∧
      pwrWrites (read_features (List.replicate 64 0) ⟨testDevice, [], some 4, 0⟩).2.events =
        [[PWR_CONF, 0]]) := by
  refine ⟨?_, ?_, by decide, by decide⟩
  · intro dev buf hp hlen
    rw [read_features_aps_on buf ⟨dev, [], none, 0⟩ rfl hp (by rw [hlen]) (by rw [hlen, START_val]; omega)]
    simp only [St.upd_events, St.upd_dev, hlen, List.nil_append]
    refine ⟨trivial, ?_, rfl⟩
    rw [pwrWrites_cons_read, pwrWrites_cons_pwr, pwrWrites_cons_delayUs, pwrWrites_append,
      pwrWrites_burstReadTrace, pwrWrites_cons_pwr, pwrWrites_cons_delayUs]
    rfl
  · intro dev f hp hf
    rw [set_features_aps_on f ⟨dev, [], none, 0⟩ rfl hp hf]
    simp only [St.upd_events, St.upd_dev, List.nil_append]
    refine ⟨trivial, ?_, rfl⟩
    rw [pwrWrites_cons_read, pwrWrites_cons_pwr, pwrWrites_cons_delayUs, pwrWrites_append,
      pwrWrites_append, pwrWrites_burstReadTrace, pwrWrites_burstWriteTrace,
      pwrWrites_cons_pwr, pwrWrites_cons_delayUs]
    rfl

set_option maxRecDepth 20000 in
set_option maxHeartbeats 1000000 in
theorem c1_restore_amended_witness :
    testDevice.pwrConf &&& 1 = 1 ∧
    pwrWrites (read_features (List.replicate 64 0) ⟨testDevice, [], none, 0⟩).2.events =
      [[PWR_CONF, testDevice.pwrConf &&& 2], [PWR_CONF, testDevice.pwrConf &&& 3]] :=
  ⟨by decide,
    (c1_restore_amended.1 testDevice (List.replicate 64 0) (by decide) (by decide)).2.1⟩

set_option maxRecDepth 20000 in
set_option maxHeartbeats 1000000 in
/-- C10 counterexample: with raw power-mode byte 0b111 (an undefined bit
set beyond the two defined PowerMode bits), the disabling write carries 2,
which clears the undefined bit as well as advanced-power-save (clearing
only the APS bit would give 6), and the restore write carries 3, not the
exact byte 7 that was read. -/
theorem c10_exact_byte_counterexample :
    pwrWrites (read_features (List.replicate 64 0) ⟨⟨7, 0, 0, fun _ => 0⟩, [], none, 0⟩).2.events =
      [[PWR_CONF, 2], [PWR_CONF, 3]] ∧
    (2 : Nat) ≠ 7 &&& (255 ^^^ ADVANCED_POWER_SAVE) ∧
    (3 : Nat) ≠ 7 ∧
    (read_features (List.replicate 64 0) ⟨⟨7, 0, 0, fun _ => 0⟩, [], none, 0⟩).2.dev.pwrConf = 3 := by
  rw [read_features_aps_on (List.replicate 64 0) ⟨⟨7, 0, 0, fun _ => 0⟩, [], none, 0⟩ rfl
    (by decide) (by decide) (by decide)]
  simp only [St.upd_events, St.upd_dev, List.nil_append, List.length_replicate]
  refine ⟨?_, by decide, by decide, rfl⟩
  rw [pwrWrites_cons_read, pwrWrites_cons_pwr, pwrWrites_cons_delayUs, pwrWrites_append,
    pwrWrites_burstReadTrace, pwrWrites_cons_pwr, pwrWrites_cons_delayUs]
  rfl

/-- C10 amended: the acquire/release bracket preserves the
FIFO_SELF_WAKEUP bit and clears advanced-power-save in the disabling write,
and the restore write puts back the value read at the start truncated to
the two defined PowerMode bits (`from_bits_truncate`); raw register bits
outside that mask are cleared by the disabling write and not restored. -/
theorem c10_bracket_truncated_amended :
    ∀ (dev : Device) (buf : List Nat), dev.pwrConf &&& 1 = 1 → buf.length = 64 →
      pwrWrites (read_features buf ⟨dev, [], none, 0⟩).2.events =
        [[PWR_CONF, dev.pwrConf &&& FIFO_SELF_WAKEUP],
         [PWR_CONF, powerModeFromBitsTruncate dev.pwrConf]] ∧
      (dev.pwrConf &&& FIFO_SELF_WAKEUP) &&& ADVANCED_POWER_SAVE = 0 ∧
      (dev.pwrConf &&& FIFO_SELF_WAKEUP) &&& FIFO_SELF_WAKEUP =
        dev.pwrConf &&& FIFO_SELF_WAKEUP ∧
      (read_features buf ⟨dev, [], none, 0⟩).2.dev.pwrConf =
        powerModeFromBitsTruncate dev.pwrConf := by
  intro dev buf hp hlen
  rw [read_features_aps_on buf ⟨dev, [], none, 0⟩ rfl hp (by rw [hlen]) (by rw [hlen, START_val]; omega)]
  simp only [St.upd_events, St.upd_dev, hlen, List.nil_append]
  refine ⟨?_, ?_, ?_, rfl⟩
  · rw [pwrWrites_cons_read, pwrWrites_cons_pwr, pwrWrites_cons_delayUs, pwrWrites_append,
      pwrWrites_burstReadTrace, pwrWrites_cons_pwr, pwrWrites_cons_delayUs]
    rfl
  · rw [Nat.and_assoc, show FIFO_SELF_WAKEUP &&& ADVANCED_POWER_SAVE = 0 from rfl]
    exact Nat.and_zero _
  · rw [Nat.and_assoc, show FIFO_SELF_WAKEUP &&& FIFO_SELF_WAKEUP = FIFO_SELF_WAKEUP from rfl]

set_option maxRecDepth 20000 in
set_option maxHeartbeats 1000000 in
theorem c10_bracket_truncated_amended_witness :
    testDevice.pwrConf &&& 1 = 1 ∧
    pwrWrites (read_features (List.replicate 64 0) ⟨testDevice, [], none, 0⟩).2.events =
      [[PWR_CONF, testDevice.pwrConf &&& FIFO_SELF_WAKEUP],
       [PWR_CONF, powerModeFromBitsTruncate testDevice.pwrConf]] :=
  ⟨by decide,
    (c10_bracket_truncated_amended testDevice (List.replicate 64 0) (by decide) (by decide)).1⟩
